import Mathlib

/-!
Shallow embedding of `weather/contrib/ecowittdirect/server.py` (the
Ecowitt Direct local weather poller of Powerwall-Dashboard) together with
a verification of its natural-language specification.

Modelling conventions:
* Python floats are modelled as real numbers (`ℝ`); Python ints as `ℤ`.
* The global `weather` dict is modelled as an insertion-ordered association
  list `Weather := List (String × PyVal)`; assignment `weather[k] = v`
  keeps the position of an existing key and appends a fresh one, exactly
  as a CPython dict does.
* Fallible Python expressions are modelled in `Except PyErr`; an uncaught
  exception inside the poller's single `try:` block is the `err` field of
  the pass state (the `except:` at the end of the mapping block catches
  everything, logs and continues).
* Under the CPython GIL each single dict operation (`weather = {...}`,
  `weather[k] = v`, reading the dict) is atomic; the trace `tr` of a pass
  records the shared store after each such atomic write, which is exactly
  the sequence of states a concurrent reader of the global `weather` can
  observe during one poll cycle.
-/

namespace EcowittDirect

noncomputable section

/-- Python runtime errors that the embedded fragment can raise. -/
inductive PyErr where
  | typeError
  | keyError (key : String)
  deriving DecidableEq

/-- Python values that can appear in the `weather` dict: `None`, ints and
floats.  (No string ever reaches the dict: `getval` raises before
returning, see below.) -/
inductive PyVal where
  | none
  | int (n : ℤ)
  | float (x : ℝ)

/-- The global `weather` dict (server.py line 143), insertion ordered. -/
abbrev Weather := List (String × PyVal)

/-- `weather[k] = v`: overwrite in place if the key exists (keeping its
position, as a CPython dict does), otherwise append. -/
def wset (w : Weather) (k : String) (v : PyVal) : Weather :=
  if w.any (fun p => p.1 = k) then
    w.map (fun p => if p.1 = k then (k, v) else p)
  else
    w ++ [(k, v)]

/-- `weather[k]` as an expression: `KeyError` when the key is absent. -/
def wget (w : Weather) (k : String) : Except PyErr PyVal :=
  match w.lookup k with
  | Option.some v => Except.ok v
  | Option.none => Except.error (PyErr.keyError k)

/-- `OBSERVATION_MAP` (server.py lines 146-160). -/
def OBSERVATION_MAP : List (String × String) :=
  [("0x02", "temperature"), ("0x07", "humidity"), ("0x03", "dewpoint"),
   ("0x04", "windchill"), ("0x05", "heatindex"), ("0x0A", "wind_deg"),
   ("0x0B", "wind_speed"), ("0x0C", "wind_gust"), ("0x0E", "rain_1h"),
   ("0x10", "rain_24h"), ("0x15", "solar"), ("0x16", "uvi"),
   ("0x17", "uvi")]

/-- `WH25_MAP` (server.py lines 162-166). -/
def WH25_MAP : List (String × String) :=
  [("intemp", "inside_temp"), ("inhumi", "inside_humidity"),
   ("abs", "pressure")]

/-- `CO2_MAP` (server.py lines 168-174). -/
def CO2_MAP : List (String × String) :=
  [("PM25", "pm25"), ("PM25_RealAQI", "pm25aqi"), ("PM10", "pm10"),
   ("PM10_RealAQI", "pm10aqi"), ("CO2", "co2")]

/-- `clearweather()` (server.py lines 177-195): the dict literal assigned
to the global `weather`. -/
def clearweather : Weather :=
  [("dt", PyVal.int 0),
   ("temperature", PyVal.none), ("humidity", PyVal.none),
   ("pressure", PyVal.none),
   ("feels_like", PyVal.none), ("app_temp", PyVal.none),
   ("wind_speed", PyVal.none), ("wind_deg", PyVal.none),
   ("wind_gust", PyVal.none),
   ("rain_1h", PyVal.float 0), ("rain_24h", PyVal.float 0),
   ("solar", PyVal.float 0), ("uvi", PyVal.int 0),
   ("inside_temp", PyVal.none), ("inside_humidity", PyVal.none),
   ("pm25", PyVal.none), ("pm25aqi", PyVal.none),
   ("pm10", PyVal.none), ("pm10aqi", PyVal.none), ("co2", PyVal.none)]

/-- `re.sub(r'[^\d.]+', '', val)` (server.py line 199): delete every
character that is neither a (decimal) digit nor a dot. -/
def reSubNonNumeric (s : String) : String :=
  ⟨s.data.filter (fun c => c.isDigit || c == '.')⟩

/-- Python's built-in `round` applied to a `str` argument: a `str` does
not define `__round__`, so `round` raises `TypeError` regardless of the
string's content and of `ndigits`. -/
def pyRoundStr (_s : String) (_ndigits : ℤ) : Except PyErr PyVal :=
  Except.error PyErr.typeError

/-- `getval(val)` (server.py lines 197-199):
`return round(re.sub(r'[^\d.]+', '', val), 1)`.
`re.sub` returns a `str`, which is passed to `round` without a numeric
conversion, so the call raises `TypeError`. -/
def getval (val : String) : Except PyErr PyVal :=
  pyRoundStr (reSubNonNumeric val) 1

/-- Python's `int()` on a float: truncation toward zero. -/
def pyInt (x : ℝ) : ℤ := if 0 ≤ x then ⌊x⌋ else ⌈x⌉

/-- The arithmetic core of `app_temp` (server.py lines 207-209), after the
argument conversions `wind_float = float(wind)`, `temp_float = float(temp)`
and `humi_int = int(humidity)` have produced their results. -/
def app_temp_core (temp_float : ℝ) (humi_int : ℤ) (wind_float : ℝ) : ℝ :=
  let wind_ms := wind_float / 3.6
  let e := (humi_int : ℝ) / 100 * 6.105 *
    Real.exp (17.27 * temp_float / (237.7 + temp_float))
  temp_float + (0.33 * e) - (0.70 * wind_ms) - 4.00

/-- `app_temp(temp, humidity, wind)` (server.py lines 201-209) on numeric
(non-`None`) arguments, in real-number semantics: note `int(humidity)`
truncates the humidity before the formula is applied. -/
def app_temp (temp humidity wind : ℝ) : ℝ :=
  app_temp_core temp (pyInt humidity) wind

/-- Modelled from the spec: the Steadman apparent-temperature formula as
the specification states it — `e = (H/100) × 6.105 × exp(17.27·T/(237.7+T))`
and `apparent = T + 0.33·e − 0.70·(W/3.6) − 4.00` — with the humidity used
as given, without truncation.  Used only for comparison with `app_temp`. -/
def steadman_spec (T H W : ℝ) : ℝ :=
  T + 0.33 * (H / 100 * 6.105 * Real.exp (17.27 * T / (237.7 + T))) -
    0.70 * (W / 3.6) - 4.00

/-- `float(x)` on a `weather` value: `float(None)` raises `TypeError`. -/
def pyFloatPv : PyVal → Except PyErr ℝ
  | PyVal.none => Except.error PyErr.typeError
  | PyVal.int n => Except.ok (n : ℝ)
  | PyVal.float x => Except.ok x

/-- `int(x)` on a `weather` value: `int(None)` raises `TypeError`. -/
def pyIntPv : PyVal → Except PyErr ℤ
  | PyVal.none => Except.error PyErr.typeError
  | PyVal.int n => Except.ok n
  | PyVal.float x => Except.ok (pyInt x)

/-- One `{"id": ..., "val": ...}` entry of `common_list` or `rain`. -/
structure Obs where
  id : String
  val : String

/-- The decoded JSON body returned by the device (`raw`): each top-level
category is optional (`if "common_list" in raw:` etc.); `wh25` and `co2`
are lists of string-keyed mappings iterated with `.items()`. -/
structure Raw where
  common_list : Option (List Obs)
  rain : Option (List Obs)
  wh25 : Option (List (List (String × String)))
  co2 : Option (List (List (String × String)))

/-- The device response `{}` — no recognized categories at all. -/
def rawEmpty : Raw :=
  { common_list := Option.none, rain := Option.none,
    wh25 := Option.none, co2 := Option.none }

/-- A device response with one recognized outdoor-temperature entry in
`common_list` and one recognized indoor-temperature entry in `wh25`:
`{"common_list": [{"id": "0x02", "val": "20"}],
  "wh25": [{"intemp": "21.1"}]}`. -/
def rawCommonIndoor : Raw :=
  { common_list := Option.some [{ id := "0x02", val := "20" }],
    rain := Option.none,
    wh25 := Option.some [[("intemp", "21.1")]],
    co2 := Option.none }

/-- The writes attempted by the `common_list` / `rain` loops
(server.py lines 240-246): for each entry whose `id` is in the map, one
assignment `weather[MAP[id]] = getval(val)`; other entries are skipped. -/
def catItems (m : List (String × String)) (obs : List Obs) :
    List (String × Except PyErr PyVal) :=
  obs.filterMap (fun ob =>
    (m.lookup ob.id).map (fun name => (name, getval ob.val)))

/-- The writes attempted by the `wh25` / `co2` loops (server.py lines
247-256): for each mapping in the list and each of its items whose key is
in the map, one assignment `weather[MAP[k]] = getval(v)`. -/
def kvItems (m : List (String × String))
    (groups : List (List (String × String))) :
    List (String × Except PyErr PyVal) :=
  (groups.map (fun g => g.filterMap (fun kv =>
    (m.lookup kv.1).map (fun name => (name, getval kv.2))))).flatten

/-- State of one mapping pass of `fetchWeather` (server.py lines 236-260):
the shared store `w`, the trace `tr` of store values after each atomic
write to the global `weather` (starting with the `clearweather()` swap),
the category loops entered so far, and the pending uncaught exception of
the single `try:` block (later caught by the `except:` on line 258). -/
structure PState where
  w : Weather
  tr : List Weather
  entered : List String
  err : Option PyErr

/-- Execute a sequence of `weather[k] = <expr>` writes; the first
expression that raises aborts the rest (the exception propagates to the
single handler of the pass). -/
def stepWrites (s : PState) : List (String × Except PyErr PyVal) → PState
  | [] => s
  | (_, Except.error e) :: _ => { s with err := Option.some e }
  | (k, Except.ok v) :: rest =>
      let w' := wset s.w k v
      stepWrites { s with w := w', tr := s.tr ++ [w'] } rest

/-- Run one category block: skipped entirely when an exception is already
propagating (control has left the `try:` body), or when the category key
is absent from `raw`. -/
def stepCat (s : PState) (name : String)
    (opt : Option (List (String × Except PyErr PyVal))) : PState :=
  if s.err.isSome then s
  else
    match opt with
    | Option.none => s
    | Option.some items => stepWrites { s with entered := s.entered ++ [name] } items

/-- The call `app_temp(weather["temperature"], weather["humidity"],
weather["wind_speed"])` (server.py line 257): the three subscripts are
evaluated first, then inside `app_temp` the conversions run in source
order `float(wind)`, `float(temp)`, `int(humidity)`; any failure raises
to the pass's single handler. -/
def appTempCall (w : Weather) : Except PyErr ℝ := do
  let tv ← wget w "temperature"
  let hv ← wget w "humidity"
  let wv ← wget w "wind_speed"
  let wf ← pyFloatPv wv
  let tf ← pyFloatPv tv
  let hi ← pyIntPv hv
  pure (app_temp_core tf hi wf)

/-- The pass state right after `clearweather()` (the atomic swap of the
global `weather` for the default dict, line 236) and the first statement
of the `try:` block, `weather["dt"] = int(lasttime)` (line 238). -/
def startPState (t : ℤ) : PState :=
  { w := wset clearweather "dt" (PyVal.int t)
    tr := [clearweather, wset clearweather "dt" (PyVal.int t)]
    entered := []
    err := Option.none }

/-- The four category loops of the mapping block, in source order
(server.py lines 239-256). -/
def passCats (raw : Raw) (s0 : PState) : PState :=
  stepCat (stepCat (stepCat
    (stepCat s0 "common_list" (raw.common_list.map (catItems OBSERVATION_MAP)))
    "rain" (raw.rain.map (catItems OBSERVATION_MAP)))
    "wh25" (raw.wh25.map (kvItems WH25_MAP)))
    "co2" (raw.co2.map (kvItems CO2_MAP))

/-- The last statement of the `try:` block,
`weather["app_temp"] = app_temp(...)` (server.py line 257): skipped when
an exception is already propagating. -/
def finishPass (s : PState) : PState :=
  if s.err.isSome then s
  else
    match appTempCall s.w with
    | Except.error e => { s with err := Option.some e }
    | Except.ok v =>
        { s with w := wset s.w "app_temp" (PyVal.float v)
                 tr := s.tr ++ [wset s.w "app_temp" (PyVal.float v)] }

/-- The mapping section of one successful-fetch cycle of `fetchWeather`
(server.py lines 236-260): `clearweather()` swaps the global `weather`
for a fresh default dict, `weather["dt"]` is set to the poll time, the
four category loops run in order, then `app_temp` is computed; everything
after `clearweather()` sits inside one `try: ... except: pass`. -/
def runPass (raw : Raw) (t : ℤ) : PState :=
  finishPass (passCats raw (startPState t))

/-- The global `weather` after the mapping section of one cycle ran on
response `raw` at poll time `t`.  The store held before the cycle is
discarded unconditionally: `clearweather()` rebinds the global before any
mapping step can fail. -/
def fetchUpdate (_prior : Weather) (raw : Raw) (t : ℤ) : Weather :=
  (runPass raw t).w

/-- The values a concurrent reader of the global `weather` (for example
`json.dumps(weather)` in `handler.do_GET`, line 351) can observe while
one mapping pass executes: the store from before the `clearweather()`
swap, or the store after any of the pass's atomic writes. -/
def readStates (raw : Raw) (t : ℤ) (prior : Weather) : List Weather :=
  prior :: (runPass raw t).tr

/-! ### The query server (`handler.do_GET`, server.py lines 321-419) -/

/-- The subset of `serverstats` touched by `do_GET`'s counting block
(lines 405-413): total GET count, total error count, and the per-path
request table `serverstats["uri"]`. -/
structure Stats where
  gets : ℕ
  errors : ℕ
  uri : List (String × ℕ)
  deriving DecidableEq

/-- The counters at process start (server.py lines 131-134). -/
def initStats : Stats := { gets := 0, errors := 0, uri := [] }

/-- Whether `pat` is an initial segment of `cs`. -/
def listStartsWith : List Char → List Char → Bool
  | _, [] => true
  | [], _ :: _ => false
  | c :: cs, p :: ps => c == p && listStartsWith cs ps

/-- Python's `needle in hay` substring test. -/
def strContains (hay needle : String) : Bool :=
  (List.range (hay.data.length + 1)).any
    (fun i => listStartsWith (hay.data.drop i) needle.data)

/-- The response body assembled by `do_GET`, at the granularity the
claims need.  JSON rendering is kept symbolic: `jsonObj` carries the
`result` association list handed to `json.dumps`, `htmlPage` carries the
data the `/` page interpolates; `statsPage`, `rawPage` and `timePage`
stand for the `/stats`, `/raw` and `/time` bodies, whose content no claim
inspects. -/
inductive Payload where
  | htmlPage (loaded : Bool) (w : Weather)
  | jsonObj (fields : List (String × PyVal))
  | statsPage
  | rawPage
  | timePage
  | textMsg (s : String)

/-- Whether the rendered body contains the substring `"Error"`
(the `if "Error" in message:` test on line 406).  The `/` page embeds
`"Error: No weather data available"` exactly when `LOADED` is false; the
JSON pages render fixed schema keys and `None`/numeric values, so their
bodies never contain `"Error"`; for the literal error payload the real
substring test is used. -/
def payloadHasError : Payload → Bool
  | Payload.htmlPage loaded _ => !loaded
  | Payload.jsonObj _ => false
  | Payload.statsPage => false
  | Payload.rawPage => false
  | Payload.timePage => false
  | Payload.textMsg s => strContains s "Error"

/-- The per-path counter update (server.py lines 409-412): increment an
existing entry in place, otherwise append a fresh entry with count 1. -/
def uriIncr (uri : List (String × ℕ)) (path : String) : List (String × ℕ) :=
  if (uri.lookup path).isSome then
    uri.map (fun p => if p.1 = path then (p.1, p.2 + 1) else p)
  else
    uri ++ [(path, 1)]

/-- Every path with a dedicated branch in `do_GET`'s `elif` chain. -/
def knownPaths : List String :=
  ["/", "/stats", "/json", "/all", "/raw", "/time", "/temp",
   "/temperature", "/humidity", "/pressure", "/feels_like", "/app_temp",
   "/wind", "/solar", "/uvi", "/indoor", "/aqi",
   "/rain", "/precipitation", "/conditions", "/weather"]

/-- The branch dispatch of `do_GET` (server.py lines 324-403): returns
the content type and payload, or the exception the branch raises.  The
`/` branch also evaluates `int(weather['dt'])` (line 342); the `/rain`,
`/precipitation`, `/conditions` and `/weather` branches subscript keys
that are never part of the observation schema. -/
def buildPayload (path : String) (w : Weather) (loaded : Bool) :
    Except PyErr (String × Payload) :=
  if path = "/" then do
    let v ← wget w "dt"
    let _ ← pyIntPv v
    pure ("text/html", Payload.htmlPage loaded w)
  else if path = "/stats" then pure ("application/json", Payload.statsPage)
  else if path = "/json" ∨ path = "/all" then
    pure ("application/json", Payload.jsonObj w)
  else if path = "/raw" then pure ("application/json", Payload.rawPage)
  else if path = "/time" then pure ("application/json", Payload.timePage)
  else if path = "/temp" then do
    let v ← wget w "temperature"
    pure ("application/json", Payload.jsonObj [("temperature", v)])
  else if path ∈ ["/temperature", "/humidity", "/pressure", "/feels_like",
      "/app_temp"] then do
    let v ← wget w (path.drop 1)
    pure ("application/json", Payload.jsonObj [(path.drop 1, v)])
  else if path = "/wind" then do
    let a ← wget w "wind_speed"
    let b ← wget w "wind_deg"
    let c ← wget w "wind_gust"
    pure ("application/json",
      Payload.jsonObj [("wind_speed", a), ("wind_deg", b), ("wind_gust", c)])
  else if path = "/solar" then do
    let a ← wget w "solar"
    pure ("application/json", Payload.jsonObj [("solar", a)])
  else if path = "/uvi" then do
    let a ← wget w "uvi"
    pure ("application/json", Payload.jsonObj [("uvi", a)])
  else if path = "/indoor" then do
    let a ← wget w "inside_temp"
    let b ← wget w "inside_humidity"
    pure ("application/json",
      Payload.jsonObj [("inside_temp", a), ("inside_humidity", b)])
  else if path = "/aqi" then do
    let a ← wget w "pm25"
    let b ← wget w "pm25aqi"
    let c ← wget w "pm10"
    let d ← wget w "pm10aqi"
    let e ← wget w "co2"
    pure ("application/json",
      Payload.jsonObj [("pm25", a), ("pm25aqi", b), ("pm10", c),
        ("pm10aqi", d), ("co2", e)])
  else if path = "/rain" ∨ path = "/precipitation" then do
    let r1 ← wget w "rain_1h"
    let r3 ← wget w "rain_3h"
    let s1 ← wget w "snow_1h"
    let s3 ← wget w "snow_3h"
    let r24 ← wget w "rain_24h"
    pure ("application/json",
      Payload.jsonObj [("rain_1h", r1), ("rain_3h", r3), ("snow_1h", s1),
        ("snow_3h", s3), ("rain_24h", r24)])
  else if path = "/conditions" ∨ path = "/weather" then do
    let a ← wget w "weather_main"
    let b ← wget w "weather_description"
    let c ← wget w "weather_icon"
    pure ("application/json",
      Payload.jsonObj [("conditions", a), ("weather_description", b),
        ("weather_icon", c)])
  else pure ("application/json", Payload.textMsg "Error: Unsupported Request")

/-- Outcome of one `do_GET` invocation: `status` is the code passed to
`send_response` on line 323 (sent before any branch runs); `result` is
either the content type, payload and updated counters, or the uncaught
exception that aborts the handler — in that case the counting block and
the header/body writes (lines 405-419) never execute, so no complete
response reaches the client. -/
structure GetResult where
  status : ℕ
  result : Except PyErr (String × Payload × Stats)

/-- `handler.do_GET` (server.py lines 321-419). -/
def do_GET (path : String) (w : Weather) (loaded : Bool) (st : Stats) :
    GetResult :=
  { status := 200
    result :=
      match buildPayload path w loaded with
      | Except.error e => Except.error e
      | Except.ok (ct, p) =>
          let st1 :=
            if payloadHasError p then { st with errors := st.errors + 1 }
            else { st with uri := uriIncr st.uri path }
          Except.ok (ct, p, { st1 with gets := st1.gets + 1 }) }

/-! ### The device fetch (`fetchWeather`, server.py lines 232-234) -/

/-- The argument list of a `requests.get` call. -/
structure RequestsGetArgs where
  url : String
  timeout : Option ℕ

/-- `URL` (server.py line 119). -/
def URL (ecoip : String) : String := "http://" ++ ecoip ++ "/get_livedata_info"

/-- The call `response = requests.get(URL)` (server.py line 233): the
`TIMEOUT` configuration value is read on line 101 but never passed, so
the request is issued with `requests`' default of no timeout. -/
def fetch_request (ecoip : String) : RequestsGetArgs :=
  { url := URL ecoip, timeout := Option.none }

/-! ### Helper lemmas about the mapping pass -/

/-- `getval` raises `TypeError` on every input: `re.sub` returns a `str`
and `round` of a `str` raises. -/
lemma getval_raises (val : String) : getval val = Except.error PyErr.typeError := rfl

/-- Every write attempted by a `common_list`/`rain` loop carries a
raising value expression. -/
lemma catItems_err (m : List (String × String)) (obs : List Obs) :
    ∀ p ∈ catItems m obs, p.2 = Except.error PyErr.typeError := by
  intro p hp
  simp only [catItems, List.mem_filterMap] at hp
  obtain ⟨ob, _, hob⟩ := hp
  rcases Option.map_eq_some'.mp hob with ⟨name, _, rfl⟩
  rfl

/-- Every write attempted by a `wh25`/`co2` loop carries a raising value
expression. -/
lemma kvItems_err (m : List (String × String))
    (groups : List (List (String × String))) :
    ∀ p ∈ kvItems m groups, p.2 = Except.error PyErr.typeError := by
  intro p hp
  simp only [kvItems, List.mem_flatten, List.mem_map] at hp
  obtain ⟨l, ⟨g, _, rfl⟩, hpl⟩ := hp
  simp only [List.mem_filterMap] at hpl
  obtain ⟨kv, _, hkv⟩ := hpl
  rcases Option.map_eq_some'.mp hkv with ⟨name, _, rfl⟩
  rfl

/-- Running a write list whose value expressions all raise leaves the
store and trace untouched: either there is no write at all, or the first
one raises. -/
lemma stepWrites_of_err (s : PState) (items : List (String × Except PyErr PyVal))
    (h : ∀ p ∈ items, p.2 = Except.error PyErr.typeError) :
    stepWrites s items = s ∨
      stepWrites s items = { s with err := Option.some PyErr.typeError } := by
  cases items with
  | nil => exact Or.inl rfl
  | cons p rest =>
      obtain ⟨k, v⟩ := p
      have hv : v = Except.error PyErr.typeError := h (k, v) (List.mem_cons_self _ _)
      subst hv
      exact Or.inr rfl

/-- `s'` differs from `s` at most in `entered` and in an exception of the
kind the mapping pass produces. -/
def StoreKept (s s' : PState) : Prop :=
  s'.w = s.w ∧ s'.tr = s.tr ∧
    (s'.err = s.err ∨ s'.err = Option.some PyErr.typeError)

lemma storeKept_self (s : PState) : StoreKept s s := ⟨rfl, rfl, Or.inl rfl⟩

lemma storeKept_trans {s s' s'' : PState}
    (h1 : StoreKept s s') (h2 : StoreKept s' s'') : StoreKept s s'' := by
  refine ⟨h2.1.trans h1.1, h2.2.1.trans h1.2.1, ?_⟩
  rcases h2.2.2 with h | h
  · rw [h]; exact h1.2.2
  · exact Or.inr h

/-- A category step never touches the store or the trace, because every
write it attempts raises before assigning. -/
lemma stepCat_kept (s : PState) (name : String)
    (opt : Option (List (String × Except PyErr PyVal)))
    (h : ∀ items, opt = Option.some items →
      ∀ p ∈ items, p.2 = Except.error PyErr.typeError) :
    StoreKept s (stepCat s name opt) := by
  unfold stepCat
  by_cases he : s.err.isSome = true
  · rw [if_pos he]; exact storeKept_self s
  · rw [if_neg he]
    cases opt with
    | none => exact storeKept_self s
    | some items =>
        show StoreKept s (stepWrites { s with entered := s.entered ++ [name] } items)
        rcases stepWrites_of_err { s with entered := s.entered ++ [name] }
            items (h items rfl) with h1 | h1
        · rw [h1]; exact ⟨rfl, rfl, Or.inl rfl⟩
        · rw [h1]; exact ⟨rfl, rfl, Or.inr rfl⟩

/-- A category step on a state that already carries an exception is the
identity (control has left the `try:` body). -/
lemma stepCat_err_id (s : PState) (name : String)
    (opt : Option (List (String × Except PyErr PyVal)))
    (e : PyErr) (h : s.err = Option.some e) : stepCat s name opt = s := by
  unfold stepCat
  rw [h]
  simp

/-- `app_temp(weather[...], ...)` on the cleared store raises `TypeError`:
`wind_speed` is `None` and `float(None)` raises. -/
lemma appTempCall_cleared (t : ℤ) :
    appTempCall (wset clearweather "dt" (PyVal.int t)) =
      Except.error PyErr.typeError := rfl

/-- `finishPass` on an exception-free state whose `app_temp` call raises:
the store and trace are kept, the exception is recorded. -/
lemma finishPass_none (s : PState) (h : s.err = Option.none)
    (hca : appTempCall s.w = Except.error PyErr.typeError) :
    finishPass s = { s with err := Option.some PyErr.typeError } := by
  unfold finishPass
  rw [h, hca]
  simp

/-- `finishPass` on a state that already carries an exception is the
identity. -/
lemma finishPass_err (s : PState) (e : PyErr) (h : s.err = Option.some e) :
    finishPass s = s := by
  unfold finishPass
  rw [h]
  simp

/-- Net effect of one whole mapping pass, for every device response and
poll time: the store ends as the cleared defaults with only `dt` set, the
only store states ever visible are the cleared dict and that final store,
and the pass always ends in a caught `TypeError` (`getval` raises on every
recognized field, and failing that, `app_temp` raises on the `None`
inputs). -/
lemma runPass_spec (raw : Raw) (t : ℤ) :
    (runPass raw t).w = wset clearweather "dt" (PyVal.int t) ∧
    (runPass raw t).tr = [clearweather, wset clearweather "dt" (PyVal.int t)] ∧
    (runPass raw t).err = Option.some PyErr.typeError := by
  have hcats : StoreKept (startPState t) (passCats raw (startPState t)) := by
    unfold passCats
    refine storeKept_trans (storeKept_trans (storeKept_trans
      (stepCat_kept _ "common_list" _ ?_) (stepCat_kept _ "rain" _ ?_))
      (stepCat_kept _ "wh25" _ ?_)) (stepCat_kept _ "co2" _ ?_)
    · intro items hi
      rcases Option.map_eq_some'.mp hi with ⟨obs, _, rfl⟩
      exact catItems_err _ obs
    · intro items hi
      rcases Option.map_eq_some'.mp hi with ⟨obs, _, rfl⟩
      exact catItems_err _ obs
    · intro items hi
      rcases Option.map_eq_some'.mp hi with ⟨groups, _, rfl⟩
      exact kvItems_err _ groups
    · intro items hi
      rcases Option.map_eq_some'.mp hi with ⟨groups, _, rfl⟩
      exact kvItems_err _ groups
  obtain ⟨hw, htr, herr⟩ := hcats
  have hw' : (passCats raw (startPState t)).w =
      wset clearweather "dt" (PyVal.int t) := hw
  have htr' : (passCats raw (startPState t)).tr =
      [clearweather, wset clearweather "dt" (PyVal.int t)] := htr
  rcases herr with h | h
  · have h0 : (passCats raw (startPState t)).err = Option.none := h
    have hfin := finishPass_none _ h0 (by rw [hw']; exact appTempCall_cleared t)
    unfold runPass
    rw [hfin]
    exact ⟨hw', htr', rfl⟩
  · have hfin := finishPass_err _ _ h
    unfold runPass
    rw [hfin]
    exact ⟨hw', htr', h⟩

/-! ### Claim theorems -/

/-- Claim C1 (evidence for the code bug): `getval` never returns a value.
`re.sub` does strip all non-digit, non-dot characters (second conjunct,
shown on the spec's style of input `"23.5C"`), but the stripped string is
passed to `round` without a `float(...)` conversion, so `round` raises
`TypeError: type str doesn't define __round__ method` on every input
(first conjunct) instead of returning the value rounded to one decimal
place.  The exception is caught only by the handler around the whole
mapping block (server.py line 258), so it aborts every remaining field of
the observation, not just the one field. -/
theorem getval_never_returns :
    (∀ val : String, getval val = Except.error PyErr.typeError) ∧
    reSubNonNumeric "23.5C" = "23.5" :=
  ⟨fun _ => rfl, rfl⟩

/-- Claim C9 (evidence for the code bug): the device fetch
`requests.get(URL)` targets the fixed local endpoint but passes no
`timeout` argument at all — the `TIMEOUT` configuration value is read but
never used — so nothing bounds how long the fetch may block. -/
theorem fetch_request_has_no_timeout (ecoip : String) :
    (fetch_request ecoip).timeout = Option.none ∧
    (fetch_request ecoip).url = "http://" ++ ecoip ++ "/get_livedata_info" :=
  ⟨rfl, rfl⟩

/-- Claim C5 (counterexample): `app_temp` does not equal the Steadman
formula as the claim states it on all non-`None` inputs.  At T=20 °C,
H=50.5 %, W=10 km/h the code truncates the humidity with `int(humidity)`
to 50 before applying the formula, so its result differs from the
formula evaluated at H=50.5. -/
theorem app_temp_not_steadman_at_half_percent :
    app_temp 20 50.5 10 ≠ steadman_spec 20 50.5 10 := by
  have hfl : ⌊(50.5 : ℝ)⌋ = 50 := by
    rw [Int.floor_eq_iff]
    constructor <;> norm_num
  have hp : pyInt (50.5 : ℝ) = 50 := by
    unfold pyInt
    rw [if_pos (by norm_num : (0 : ℝ) ≤ 50.5), hfl]
  simp only [app_temp, app_temp_core, steadman_spec, hp]
  intro h
  have hE : 0 < Real.exp (17.27 * 20 / (237.7 + 20)) := Real.exp_pos _
  push_cast at h
  nlinarith [hE]

/-- Claim C5 (amended): for every temperature and wind speed and every
integer humidity value, `app_temp` computes exactly the Steadman apparent
temperature of the claim (in real-number semantics): the only deviation
from the claimed formula is the `int(humidity)` truncation, which is the
identity on integer humidity — in particular at the claim's instance
T=20, H=50, W=10. -/
theorem app_temp_is_steadman_on_int_humidity (T W : ℝ) (n : ℤ) :
    app_temp T (n : ℝ) W = steadman_spec T (n : ℝ) W := by
  have hp : pyInt ((n : ℤ) : ℝ) = n := by
    unfold pyInt
    by_cases h : (0 : ℝ) ≤ (n : ℝ)
    · rw [if_pos h, Int.floor_intCast]
    · rw [if_neg h, Int.ceil_intCast]
  simp only [app_temp, app_temp_core, steadman_spec, hp]

/-- Claim C3 (counterexample): a cycle in which an unrecoverable mapping
exception occurs (here: `app_temp(None, None, None)` raising `TypeError`
on the empty response `{}` at poll time 200) does not leave the store
holding the prior cycle's observation: the prior cycle's store (from poll
time 100) had `dt = 100`, the store after the failing cycle has
`dt = 200` and is a different record. -/
theorem store_changed_despite_mapping_error :
    (runPass rawEmpty 200).err = Option.some PyErr.typeError ∧
    fetchUpdate (fetchUpdate clearweather rawEmpty 100) rawEmpty 200 ≠
      fetchUpdate clearweather rawEmpty 100 := by
  refine ⟨rfl, ?_⟩
  intro h
  have h200 : wget (fetchUpdate (fetchUpdate clearweather rawEmpty 100)
      rawEmpty 200) "dt" = Except.ok (PyVal.int 200) := rfl
  rw [h] at h200
  rw [show wget (fetchUpdate clearweather rawEmpty 100) "dt" =
      Except.ok (PyVal.int 100) from rfl] at h200
  injection h200 with h1
  injection h1 with h2
  exact absurd h2 (by decide)

/-- Claim C3 (amended): on every cycle the mapping raises an exception,
the exception is caught (so the cycle is abandoned and retried on the
next tick), but the store is not left unmodified from the prior cycle:
`clearweather()` has already discarded the prior observation before the
`try:` block starts, so after the failure the store holds the freshly
cleared defaults with the new timestamp and whatever was written before
the failure point — independent of the prior store. -/
theorem mapping_error_leaves_cleared_store (prior : Weather) (raw : Raw)
    (t : ℤ) :
    (runPass raw t).err = Option.some PyErr.typeError ∧
    fetchUpdate prior raw t = wset clearweather "dt" (PyVal.int t) :=
  ⟨(runPass_spec raw t).2.2, (runPass_spec raw t).1⟩

/-- Claim C6 (confirmed): whenever the observation's temperature,
humidity or wind speed is `None` at the point of the `app_temp` call, the
`app_temp` field of the published observation is the defined absent value
`None`, and the `TypeError` that `float(None)` raises inside `app_temp`
is captured by the mapping block's handler (the pass state records it as
a caught exception) instead of crashing the poller.  (The hypothesis is
not needed by the proof: the conclusion holds on every cycle, because
`getval` always raises and so no mapped field is ever populated at all —
but it is kept to mirror the claim's precondition, and it is in fact
satisfied on every cycle.) -/
theorem app_temp_field_is_none_on_missing_input (raw : Raw) (t : ℤ)
    (_h : wget (runPass raw t).w "temperature" = Except.ok PyVal.none ∨
          wget (runPass raw t).w "humidity" = Except.ok PyVal.none ∨
          wget (runPass raw t).w "wind_speed" = Except.ok PyVal.none) :
    wget (runPass raw t).w "app_temp" = Except.ok PyVal.none ∧
    (runPass raw t).err = Option.some PyErr.typeError := by
  refine ⟨?_, (runPass_spec raw t).2.2⟩
  rw [(runPass_spec raw t).1]
  rfl

/-- Witness for C6 at the concrete device response `{}` and poll time 0:
the temperature is `None` there, and the theorem applies. -/
theorem app_temp_field_is_none_on_missing_input_witness :
    (wget (runPass rawEmpty 0).w "temperature" = Except.ok PyVal.none) ∧
    (wget (runPass rawEmpty 0).w "app_temp" = Except.ok PyVal.none ∧
     (runPass rawEmpty 0).err = Option.some PyErr.typeError) :=
  ⟨rfl, app_temp_field_is_none_on_missing_input rawEmpty 0 (Or.inl rfl)⟩

/-- Claim C2 (counterexample): the observation is not replaced
atomically.  During the poll cycle at time 200, a reader concurrent with
the update can observe the freshly cleared default record (`dt = 0`,
all data fields reset), which is neither the complete previous
observation (the store produced by the cycle at time 100, `dt = 100`) nor
the complete new one (`dt = 200`). -/
theorem reader_observes_partial_store :
    clearweather ∈ readStates rawEmpty 200
      (fetchUpdate clearweather rawEmpty 100) ∧
    clearweather ≠ fetchUpdate clearweather rawEmpty 100 ∧
    clearweather ≠ (runPass rawEmpty 200).w := by
  refine ⟨?_, ?_, ?_⟩
  · rw [show readStates rawEmpty 200 (fetchUpdate clearweather rawEmpty 100) =
      [fetchUpdate clearweather rawEmpty 100, clearweather,
       wset clearweather "dt" (PyVal.int 200)] from rfl]
    exact List.mem_cons_of_mem _ (List.mem_cons_self _ _)
  · intro h
    have h0 : wget clearweather "dt" = Except.ok (PyVal.int 0) := rfl
    rw [h] at h0
    rw [show wget (fetchUpdate clearweather rawEmpty 100) "dt" =
        Except.ok (PyVal.int 100) from rfl] at h0
    injection h0 with h1
    injection h1 with h2
    exact absurd h2 (by decide)
  · intro h
    have h0 : wget clearweather "dt" = Except.ok (PyVal.int 0) := rfl
    rw [h] at h0
    rw [show wget (runPass rawEmpty 200).w "dt" =
        Except.ok (PyVal.int 200) from rfl] at h0
    injection h0 with h1
    injection h1 with h2
    exact absurd h2 (by decide)

/-- Claim C2 (amended): the replacement is field-by-field, not atomic —
a reader concurrent with a poll cycle's update obtains the complete
previous observation, the freshly cleared default record, or the cleared
record with the cycle's writes so far applied (in this code: the new
timestamp); it never blocks and never sees a blend of two different
polls' field values. -/
theorem reader_sees_prior_cleared_or_updated (raw : Raw) (t : ℤ)
    (prior x : Weather) (h : x ∈ readStates raw t prior) :
    x = prior ∨ x = clearweather ∨
      x = wset clearweather "dt" (PyVal.int t) := by
  unfold readStates at h
  rw [(runPass_spec raw t).2.1] at h
  simpa using h

/-- Witness for the C2 amended theorem at a concrete read: during the
cycle on response `{}` at poll time 0 starting from the initial store, the
cleared record is readable, and it is classified by the theorem. -/
theorem reader_sees_prior_cleared_or_updated_witness :
    clearweather ∈ readStates rawEmpty 0 clearweather ∧
    (clearweather = clearweather ∨ clearweather = clearweather ∨
     clearweather = wset clearweather "dt" (PyVal.int 0)) :=
  ⟨by
    rw [show readStates rawEmpty 0 clearweather =
      [clearweather, clearweather, wset clearweather "dt" (PyVal.int 0)]
      from rfl]
    exact List.mem_cons_self _ _,
   reader_sees_prior_cleared_or_updated rawEmpty 0 clearweather clearweather
    (by
      rw [show readStates rawEmpty 0 clearweather =
        [clearweather, clearweather, wset clearweather "dt" (PyVal.int 0)]
        from rfl]
      exact List.mem_cons_self _ _)⟩

/-- Claim C4 (counterexample): on the response
`{"common_list": [{"id": "0x02", "val": "20"}], "wh25": [{"intemp": "21.1"}]}`
the mapping of the common-readings category raises, and the failure is
not confined to that category: the indoor (`wh25`) loop is never entered
and the `inside_temp` field stays at its cleared default instead of being
populated in the same pass. -/
theorem indoor_category_skipped_after_common_failure :
    (runPass rawCommonIndoor 0).err = Option.some PyErr.typeError ∧
    (runPass rawCommonIndoor 0).entered = ["common_list"] ∧
    wget (runPass rawCommonIndoor 0).w "inside_temp" =
      Except.ok PyVal.none := ⟨rfl, rfl, rfl⟩

/-- Claim C4 (amended): a single exception handler wraps all four
category loops and the apparent-temperature step, so an exception during
the first category that attempts a write (here: `common_list`, whose
first recognized entry raises in `getval`) abandons the remainder of the
whole mapping pass: the rain, indoor and air-quality loops never execute,
and only the writes made before the failure (the cleared defaults and the
timestamp) are retained. -/
theorem common_failure_aborts_whole_pass (raw : Raw) (t : ℤ)
    (obs : List Obs) (hc : raw.common_list = Option.some obs)
    (hne : catItems OBSERVATION_MAP obs ≠ []) :
    (runPass raw t).entered = ["common_list"] ∧
    (runPass raw t).err = Option.some PyErr.typeError ∧
    (runPass raw t).w = wset clearweather "dt" (PyVal.int t) := by
  have hs1 : stepCat (startPState t) "common_list"
      (raw.common_list.map (catItems OBSERVATION_MAP)) =
      { startPState t with
        entered := ["common_list"], err := Option.some PyErr.typeError } := by
    rw [hc]
    simp only [Option.map_some']
    cases hitems : catItems OBSERVATION_MAP obs with
    | nil => exact absurd hitems hne
    | cons p rest =>
        obtain ⟨k, v⟩ := p
        have hv : v = Except.error PyErr.typeError :=
          catItems_err OBSERVATION_MAP obs (k, v)
            (by rw [hitems]; exact List.mem_cons_self _ _)
        subst hv
        rfl
  have h2 : stepCat
      { startPState t with
        entered := ["common_list"], err := Option.some PyErr.typeError }
      "rain" (raw.rain.map (catItems OBSERVATION_MAP)) =
      { startPState t with
        entered := ["common_list"], err := Option.some PyErr.typeError } :=
    stepCat_err_id _ _ _ PyErr.typeError rfl
  have h3 : stepCat
      { startPState t with
        entered := ["common_list"], err := Option.some PyErr.typeError }
      "wh25" (raw.wh25.map (kvItems WH25_MAP)) =
      { startPState t with
        entered := ["common_list"], err := Option.some PyErr.typeError } :=
    stepCat_err_id _ _ _ PyErr.typeError rfl
  have h4 : stepCat
      { startPState t with
        entered := ["common_list"], err := Option.some PyErr.typeError }
      "co2" (raw.co2.map (kvItems CO2_MAP)) =
      { startPState t with
        entered := ["common_list"], err := Option.some PyErr.typeError } :=
    stepCat_err_id _ _ _ PyErr.typeError rfl
  have hfinal : runPass raw t =
      { startPState t with
        entered := ["common_list"], err := Option.some PyErr.typeError } := by
    unfold runPass passCats
    rw [hs1, h2, h3, h4]
    exact finishPass_err _ PyErr.typeError rfl
  rw [hfinal]
  exact ⟨rfl, rfl, rfl⟩

/-- Witness for the C4 amended theorem at the concrete response
`rawCommonIndoor`, whose `common_list` holds one recognized entry. -/
theorem common_failure_aborts_whole_pass_witness :
    (rawCommonIndoor.common_list =
      Option.some [{ id := "0x02", val := "20" }] ∧
     catItems OBSERVATION_MAP [{ id := "0x02", val := "20" }] ≠ []) ∧
    ((runPass rawCommonIndoor 0).entered = ["common_list"] ∧
     (runPass rawCommonIndoor 0).err = Option.some PyErr.typeError ∧
     (runPass rawCommonIndoor 0).w =
       wset clearweather "dt" (PyVal.int 0)) :=
  ⟨⟨rfl, by simp [catItems, OBSERVATION_MAP]⟩,
   common_failure_aborts_whole_pass rawCommonIndoor 0
     [{ id := "0x02", val := "20" }] rfl
     (by simp [catItems, OBSERVATION_MAP])⟩

/-- Claim C7 (counterexample): a GET for the unknown path `/nonexistent`
(served over the cleared store and fresh counters) returns the literal
error payload and increments the total-error counter and the total-GET
counter — but the per-path table stays empty: the counting block is an
if/else, so an error response is never recorded in the per-path counters,
refuting "both the total-error counter and the per-path counter ... are
incremented". -/
theorem unknown_path_per_path_counter_untouched :
    (do_GET "/nonexistent" clearweather false initStats).result =
      Except.ok ("application/json",
        Payload.textMsg "Error: Unsupported Request",
        { gets := 1, errors := 1, uri := [] }) := rfl

/-- Claim C7 (amended): for every path outside the routing table, the
response body is the literal error payload
`"Error: Unsupported Request"`, the total-error counter and the total-GET
counter are incremented, and the per-path counter table is left
unchanged — the per-path counter for the unknown path is not
incremented nor created. -/
theorem unknown_path_counts (path : String) (w : Weather) (loaded : Bool)
    (st : Stats) (h : path ∉ knownPaths) :
    (do_GET path w loaded st).result =
      Except.ok ("application/json",
        Payload.textMsg "Error: Unsupported Request",
        { gets := st.gets + 1, errors := st.errors + 1, uri := st.uri }) := by
  simp only [knownPaths, List.mem_cons, List.mem_singleton, not_or] at h
  obtain ⟨h1, h2, h3, h4, h5, h6, h7, h8, h9, h10, h11, h12, h13, h14, h15,
    h16, h17, h18, h19, h20, h21⟩ := h
  have hbp : buildPayload path w loaded =
      Except.ok ("application/json",
        Payload.textMsg "Error: Unsupported Request") := by
    unfold buildPayload
    simp only [h1, h2, h3, h4, h5, h6, h7, h8, h9, h10, h11, h12, h13, h14,
      h15, h16, h17, h18, h19, h20, h21, List.mem_cons, List.not_mem_nil,
      or_false, or_self, if_false, ite_false, if_neg, not_false_eq_true]
    rfl
  unfold do_GET
  rw [hbp]
  rfl

/-- Witness for the C7 amended theorem at the concrete unknown path
`/nonexistent` over the cleared store and fresh counters. -/
theorem unknown_path_counts_witness :
    "/nonexistent" ∉ knownPaths ∧
    (do_GET "/nonexistent" clearweather true initStats).result =
      Except.ok ("application/json",
        Payload.textMsg "Error: Unsupported Request",
        { gets := initStats.gets + 1, errors := initStats.errors + 1,
          uri := initStats.uri }) :=
  ⟨by decide,
   unknown_path_counts "/nonexistent" clearweather true initStats (by decide)⟩

/-- Claim C8 (evidence for the code bug): for every store the poller can
ever publish (any device response, any poll time), a GET for `/rain`
aborts with `KeyError: 'rain_3h'` — the handler subscripts the keys
`rain_3h`, `snow_1h`, `snow_3h`, which are not part of the observation
schema — so no rain/snow JSON body and no content-type/content-length
headers are ever sent for this route. -/
theorem rain_endpoint_raises_keyerror (raw : Raw) (t : ℤ) (loaded : Bool)
    (st : Stats) :
    (do_GET "/rain" (runPass raw t).w loaded st).result =
      Except.error (PyErr.keyError "rain_3h") := by
  rw [(runPass_spec raw t).1]
  rfl

/-- Claim C10 (counterexample): on the path `/precipitation` (served over
the freshly initialized store) the handler raises `KeyError: 'rain_3h'`
after `send_response(200)` but before `end_headers()`, so the buffered
status line is never flushed and no HTTP response — with status 200 or
any other — is delivered to the client, refuting "on every path the
response is sent with status code 200". -/
theorem precipitation_aborts_without_response :
    (do_GET "/precipitation" clearweather true initStats).result =
      Except.error (PyErr.keyError "rain_3h") := rfl

/-- Claim C10 (amended): `do_GET` unconditionally passes 200 to
`send_response` before dispatching on the path, for every path, store,
readiness flag and counter state — including unknown paths, error
payloads and requests before the first successful poll — and no other
status code is ever produced; however on the four routes that subscript
keys missing from the schema (`/rain`, `/precipitation`, `/conditions`,
`/weather`) the handler aborts afterwards and no complete response is
sent. -/
theorem do_GET_status_always_200 (path : String) (w : Weather)
    (loaded : Bool) (st : Stats) :
    (do_GET path w loaded st).status = 200 := rfl

end

end EcowittDirect
